import Mathlib

/-!
Verification of the beryl-sql value bridge (src/beryl_sql.c) against its
natural-language specification.

The development shallowly embeds the source file: host values (struct i_val)
become an inductive type, the sqlite3 engine — an external collaborator that
the source reaches only through the prepare/bind/step/finalize protocol — is
modelled by its documented interface behavior, and the script-execution
function beryl_sqldb_object_call is embedded as a function that additionally
threads an allocation trace, so that the release-on-every-exit-path claims can
be stated about it.  Machine integers are modelled as Nat/Int; the
double-precision values carried by host Numbers and engine FLOAT cells are
modelled by their exact rational value, with the two lossy conversions the
source performs (double to C int at the sqlite3_bind_int call site, and
int64 to double inside sqlite3_column_double) made explicit.
-/

namespace BerylSql

/-! ## Engine and host constants (from sqlite3.h resp. the host runtime headers) -/

/-- Result code SQLITE_OK from sqlite3.h. -/
def SQLITE_OK : Nat := 0

/-- Result code SQLITE_BUSY from sqlite3.h. -/
def SQLITE_BUSY : Nat := 5

/-- Result code SQLITE_TOOBIG from sqlite3.h. -/
def SQLITE_TOOBIG : Nat := 18

/-- Result code SQLITE_RANGE from sqlite3.h: a bind index outside the range
of parameters of the prepared statement. -/
def SQLITE_RANGE : Nat := 25

/-- Column type code SQLITE_INTEGER from sqlite3.h. -/
def SQLITE_INTEGER : Nat := 1

/-- Column type code SQLITE_FLOAT from sqlite3.h. -/
def SQLITE_FLOAT : Nat := 2

/-- Column type code SQLITE_TEXT from sqlite3.h. -/
def SQLITE_TEXT : Nat := 3

/-- Column type code SQLITE_BLOB from sqlite3.h. -/
def SQLITE_BLOB : Nat := 4

/-- Column type code SQLITE_NULL from sqlite3.h. -/
def SQLITE_NULL : Nat := 5

/-- The constant SQLITE_LIMIT_VARIABLE_NUMBER from sqlite3.h.  This is the
identifier of the run-time limit category to be passed to sqlite3_limit();
its value is 9.  It is not itself a parameter-count limit. -/
def SQLITE_LIMIT_VARIABLE_NUMBER : Nat := 9

/-- The default compile-time value of the engine maximum bindable parameter
count, SQLITE_MAX_VARIABLE_NUMBER (32766 since sqlite 3.32; 999 before; never
below 999 in any released configuration). -/
def SQLITE_MAX_VARIABLE_NUMBER : Nat := 32766

/-- INT_MAX for the 32-bit int type used by the C compiler targeted by the
source (the sqlite3_bind_text length argument and sqlite3_bind_int value
argument are of this type). -/
def INT_MAX : Nat := 2 ^ 31 - 1

/-- Maximum value of the host runtime length type i_size.  The host runtime
headers are external to this repository; what the source itself witnesses is
that i_size values can exceed INT_MAX (the explicit INT_MAX guard before
sqlite3_bind_text would otherwise be dead code), and the i_size type is the
32-bit unsigned size type of the host, so its maximum is 2^32 - 1. -/
def I_SIZE_MAX : Nat := 2 ^ 32 - 1

/-- Maximum integer exactly representable in the host Number type
(a double-precision float), used by the BERYL_NUM_MAX_INT range check of
get-last-insert-rowid; per the spec this is the host maximum representable
integer, 2^53 for a binary64 significand. -/
def BERYL_NUM_MAX_INT : Int := 2 ^ 53

/-! ## Host values -/

/-- Host value model (struct i_val), per spec section 3: a tagged union over
Null, Number (double-precision), String (length-prefixed byte sequence),
Array, Table (ordered key/value pairs), Error, ExternalFunction and Object.
The Number payload is modelled by the exact rational value of the double.
External functions and objects are identified by an opaque id. -/
inductive IVal where
  | vnull
  | number (q : ℚ)
  | str (bytes : List Nat)
  | array (elems : List IVal)
  | table (entries : List (IVal × IVal))
  | err (msg : String)
  | extfn (id : Nat)
  | object (id : Nat)

/-- Type tags of host values (the BERYL_TYPEOF discriminator). -/
inductive BTag where
  | tnull
  | tnumber
  | tstr
  | tarray
  | ttable
  | terr
  | textfn
  | tobject
deriving DecidableEq

/-- BERYL_TYPEOF: the tag of a host value. -/
def BERYL_TYPEOF : IVal → BTag
  | .vnull => .tnull
  | .number _ => .tnumber
  | .str _ => .tstr
  | .array _ => .tarray
  | .table _ => .ttable
  | .err _ => .terr
  | .extfn _ => .textfn
  | .object _ => .tobject

/-- Byte sequence of a Lean string literal, used for the literal C strings
appearing in the source (they are byte strings at the interface). -/
def strLit (s : String) : List Nat := s.toList.map Char.toNat

/-- The predicate beryl_is_integer of the host runtime: whether a Number
holds an integral value. -/
def beryl_is_integer (q : ℚ) : Bool := q.den == 1

/-! ## The binary64 view of integers

sqlite3_column_double converts an INTEGER (int64) cell to a double using the
round-to-nearest, ties-to-even conversion of IEEE 754 binary64.  For int64
inputs no overflow can occur; an integer n is converted exactly iff it is
representable, i.e. iff it is a multiple of the binade spacing 2^(floor(log2 n) - 52)
once the magnitude exceeds 2^53. -/

/-- Nearest multiple of m to n, ties going to the even multiple
(round-to-nearest-even at granularity m; m is a positive power of two at
every use site). -/
def roundNatTE (m n : Nat) : Nat :=
  let q := n / m
  let r := n % m
  if 2 * r < m then q * m
  else if m < 2 * r then (q + 1) * m
  else if q % 2 = 0 then q * m else (q + 1) * m

/-- Number of halvings taking n strictly below 2^53, computed with
structural fuel (64 steps suffice for any int64 magnitude).  For
n > 2^53 this equals floor(log2 n) - 52, the exponent of the binade
spacing of binary64 at magnitude n. -/
def dblExpAux : Nat → Nat → Nat
  | 0, _ => 0
  | fuel + 1, n => if n < 2 ^ 53 then 0 else dblExpAux fuel (n / 2) + 1

/-- Magnitude of the binary64 rounding of an integer magnitude: exact up to
2^53, rounded to the binade spacing (ties to even) beyond. -/
def intMagRound (n : Nat) : Nat :=
  if n ≤ 2 ^ 53 then n
  else roundNatTE (2 ^ dblExpAux 64 n) n

/-- Value of the double produced from an int64 by the C int64-to-double
conversion (round to nearest, ties to even): sign times rounded magnitude. -/
def int64ToDouble (n : Int) : ℚ := ((n.sign * (intMagRound n.natAbs : Int) : Int) : ℚ)

/-- The implicit C conversion of a double argument to the int parameter of
sqlite3_bind_int: the value is truncated toward zero; if the truncated value
does not fit in int, the conversion is undefined behavior (C11 6.3.1.4p1),
modelled as none. -/
def doubleToCInt (q : ℚ) : Option Int :=
  let t : Int := q.num.tdiv (q.den : Int)
  if -(2 ^ 31) ≤ t ∧ t ≤ 2 ^ 31 - 1 then some t else none

/-! ## Engine cells and the column accessors -/

/-- Value stored in one engine cell (a bound parameter slot or a result
column of the current row). -/
inductive SqlCell where
  | cnull
  | cint (i : Int)
  | cfloat (q : ℚ)
  | ctext (bytes : List Nat)
  | cblob (bytes : List Nat)

/-- sqlite3_column_type of a cell. -/
def sqlite3_column_type : SqlCell → Nat
  | .cnull => SQLITE_NULL
  | .cint _ => SQLITE_INTEGER
  | .cfloat _ => SQLITE_FLOAT
  | .ctext _ => SQLITE_TEXT
  | .cblob _ => SQLITE_BLOB

/-- sqlite3_column_double of a cell: INTEGER cells go through the
int64-to-double conversion, FLOAT cells are returned as stored.  The engine
text-to-number coercion is not reached by the decoder (which switches on the
column type first) and is modelled as 0. -/
def sqlite3_column_double : SqlCell → ℚ
  | .cnull => 0
  | .cint i => int64ToDouble i
  | .cfloat q => q
  | .ctext _ => 0
  | .cblob _ => 0

/-- sqlite3_column_bytes of a cell: the byte length of a TEXT or BLOB cell. -/
def sqlite3_column_bytes : SqlCell → Nat
  | .ctext b => b.length
  | .cblob b => b.length
  | _ => 0

/-- sqlite3_column_blob of a cell: the raw bytes of a TEXT or BLOB cell. -/
def sqlite3_column_blob : SqlCell → List Nat
  | .ctext b => b
  | .cblob b => b
  | _ => []

/-! ## Allocation trace

The resource-safety claims are about which resources are released on which
exit path.  The embedding threads a trace that gives every tracked resource
acquisition a serial id and records acquisitions and releases; an oracle
(failSet) decides which fallible host allocations fail, modelling
out-of-memory at exactly the call sites the source checks. -/

/-- Allocation trace: nextId is the next serial number, failSet the serial
numbers at which a fallible host allocation reports out-of-memory, allocs
and frees the recorded events in order. -/
structure Trace where
  nextId : Nat
  failSet : List Nat
  allocs : List Nat
  frees : List Nat
deriving DecidableEq

/-- Fallible host allocation (beryl_new_array, beryl_new_table,
beryl_new_string, beryl_talloc): consumes one serial number; fails iff that
number is in the oracle failSet. -/
def Trace.alloc (tr : Trace) : Option Nat × Trace :=
  if tr.nextId ∈ tr.failSet then
    (none, { tr with nextId := tr.nextId + 1 })
  else
    (some tr.nextId,
      { tr with nextId := tr.nextId + 1, allocs := tr.allocs ++ [tr.nextId] })

/-- Infallible resource acquisition (the prepared-statement handle produced
by a successful sqlite3_prepare_v2; its failure is already a compile-error
plan item). -/
def Trace.acquire (tr : Trace) : Nat × Trace :=
  (tr.nextId,
    { tr with nextId := tr.nextId + 1, allocs := tr.allocs ++ [tr.nextId] })

/-- Release or finalization of a tracked resource (beryl_release,
beryl_tfree, sqlite3_finalize). -/
def Trace.free (tr : Trace) (id : Nat) : Trace :=
  { tr with frees := tr.frees ++ [id] }

/-! ## The engine connection and the statement oracle -/

/-- Engine connection state (sqlite3*): whether sqlite3_close would succeed
on it (it fails with SQLITE_BUSY while prepared statements are unfinalized),
and the last-insert-rowid counter. -/
structure Sqlite3 where
  canClose : Bool
  lastRowid : Int
deriving DecidableEq

/-- One prepared statement as the source observes it through the engine
protocol: its bindable-parameter count, its result-column names, and its row
behavior: given the cells bound into it, the row cells produced by successive
sqlite3_step calls and the step result after the last row (SQLITE_DONE,
SQLITE_BUSY, or another error code). -/
inductive StepFinal where
  | done
  | busy
  | errcode (e : Nat)

structure PreparedStmt where
  nParams : Nat
  colNames : List (List Nat)
  run : List SqlCell → List (List SqlCell) × StepFinal

/-- One item of the engine compilation of a script text: sqlite3_prepare_v2
either reports a compile error or yields one prepared statement and advances
the text cursor.  A script is modelled by the sequence of these outcomes. -/
inductive ScriptItem where
  | compileError (code : Nat)
  | stmt (s : PreparedStmt)

/-- Engine bind call sqlite3_bind_* at index i of a statement with nParams
parameters: rejects an index outside 1..nParams with SQLITE_RANGE, otherwise
records the cell. -/
inductive BindResult where
  | ok (c : SqlCell)
  | errcode (e : Nat)
  | undef

def sqlite3_bind_cell (nParams i : Nat) (c : SqlCell) : BindResult :=
  if 1 ≤ i ∧ i ≤ nParams then .ok c else .errcode SQLITE_RANGE

/-! ## The value bridge, embedded from the source -/

/-- Embedding of bind_i_val_as_sql_param (src/beryl_sql.c lines 48-67):
String binds as text by reference after the INT_MAX length guard; Null binds
as SQL NULL; an integer-flagged Number binds through sqlite3_bind_int, whose
int argument is produced by the (possibly undefined) double-to-int
conversion; any other Number binds as a double; every other variant binds
the literal text "Unkown" (sic, as spelled in the source). -/
def bind_i_val_as_sql_param (nParams i : Nat) (val : IVal) : BindResult :=
  match val with
  | .str bytes =>
      if bytes.length > INT_MAX then .errcode SQLITE_TOOBIG
      else sqlite3_bind_cell nParams i (.ctext bytes)
  | .vnull => sqlite3_bind_cell nParams i .cnull
  | .number q =>
      if beryl_is_integer q then
        match doubleToCInt q with
        | some k => sqlite3_bind_cell nParams i (.cint k)
        | none => .undef
      else sqlite3_bind_cell nParams i (.cfloat q)
  | _ => sqlite3_bind_cell nParams i (.ctext (strLit "Unkown"))

/-- Specification-side per-cell decoding map used to state the row-decoding
claims: engine NULL to host Null, INTEGER and FLOAT to host Number (through
the column_double conversion), TEXT and BLOB to a copied host String. -/
def decodeCell : SqlCell → IVal
  | .cnull => .vnull
  | .cint i => .number (int64ToDouble i)
  | .cfloat q => .number q
  | .ctext b => .str b
  | .cblob b => .str b

/-- Loop body of create_table_from_row (src/beryl_sql.c lines 88-121): for
each column, switch on the engine column type; NULL becomes host Null,
INTEGER and FLOAT become a host Number via sqlite3_column_double, TEXT and
BLOB are length-checked against I_SIZE_MAX and copied into a fresh host
String (a fallible allocation), releasing the table and aborting with the
corresponding error value on failure.  Keys are the pre-computed column
descriptors, taken in order; the caller always passes one descriptor per
column. -/
def rowLoop (cells : List SqlCell) (names : List IVal) (tableId : Nat)
    (acc : List (IVal × IVal)) (tr : Trace) : IVal × Trace :=
  match cells with
  | [] => (.table acc, tr)
  | c :: cs =>
      let key := names.headD .vnull
      match c with
      | .cnull => rowLoop cs names.tail tableId (acc ++ [(key, .vnull)]) tr
      | .cint _ =>
          rowLoop cs names.tail tableId
            (acc ++ [(key, .number (sqlite3_column_double c))]) tr
      | .cfloat _ =>
          rowLoop cs names.tail tableId
            (acc ++ [(key, .number (sqlite3_column_double c))]) tr
      | .ctext _ =>
          if sqlite3_column_bytes c > I_SIZE_MAX then
            (.err "Text/blob too large", tr.free tableId)
          else
            match tr.alloc with
            | (none, tr2) => (.err "Out of memory", tr2.free tableId)
            | (some _, tr2) =>
                rowLoop cs names.tail tableId
                  (acc ++ [(key, .str (sqlite3_column_blob c))]) tr2
      | .cblob _ =>
          if sqlite3_column_bytes c > I_SIZE_MAX then
            (.err "Text/blob too large", tr.free tableId)
          else
            match tr.alloc with
            | (none, tr2) => (.err "Out of memory", tr2.free tableId)
            | (some _, tr2) =>
                rowLoop cs names.tail tableId
                  (acc ++ [(key, .str (sqlite3_column_blob c))]) tr2

/-- Embedding of create_table_from_row (src/beryl_sql.c lines 80-124): guard
the column count against I_SIZE_MAX, allocate the table (fallible), then run
the column loop.  The table owns the values inserted into it, so releasing
the table releases them; the trace tracks the table as one resource. -/
def create_table_from_row (cells : List SqlCell) (names : List IVal)
    (tr : Trace) : IVal × Trace :=
  if cells.length > I_SIZE_MAX then (.err "Too many columns", tr)
  else
    match tr.alloc with
    | (none, tr2) => (.err "Out of memory", tr2)
    | (some tableId, tr2) => rowLoop cells names tableId [] tr2

/-! ## The statement executor and script runner, embedded from the source -/

/-- Outcome of a script invocation on the handle: the result collection, an
error value, or undefined behavior reached (out-of-range double-to-int
conversion inside a bind). -/
inductive CallResult where
  | ok (rows : List IVal)
  | errv (msg : String)
  | undef

/-- Bind loop of beryl_sqldb_object_call (src/beryl_sql.c lines 156-164):
bind positional parameters 1..n in order; the first failure aborts. -/
inductive BindFail where
  | errcode (e : Nat)
  | undef

def bindAll (nParams i : Nat) (params : List IVal) :
    Except BindFail (List SqlCell) :=
  match params with
  | [] => .ok []
  | v :: rest =>
      match bind_i_val_as_sql_param nParams i v with
      | .errcode e => .error (.errcode e)
      | .undef => .error .undef
      | .ok c =>
          match bindAll nParams (i + 1) rest with
          | .error f => .error f
          | .ok cs => .ok (c :: cs)

/-- Column-descriptor construction (src/beryl_sql.c lines 174-186):
cstr_to_beryl_str per column name, each a fallible allocation (also failing
for a name longer than I_SIZE_MAX).  On failure the source runs a cleanup
loop that releases column_names[i] — the slot that just failed and holds
BERYL_NULL — instead of column_names[j], so none of the previously
constructed descriptors is actually released; the trace therefore keeps
their allocations with no matching free when this function returns none. -/
def allocNames (names : List (List Nat)) (tr : Trace) :
    Option (List (IVal × Nat)) × Trace :=
  match names with
  | [] => (some [], tr)
  | n :: ns =>
      if n.length > I_SIZE_MAX then (none, tr)
      else
        match tr.alloc with
        | (none, tr2) => (none, tr2)
        | (some id, tr2) =>
            match allocNames ns tr2 with
            | (none, tr3) => (none, tr3)
            | (some rest, tr3) => (some ((.str n, id) :: rest), tr3)

/-- Step loop of beryl_sqldb_object_call (src/beryl_sql.c lines 188-222):
each available row is materialized via create_table_from_row and appended to
the result collection; a materialization failure finalizes the statement,
releases the result collection and the column descriptors — but not the
descriptor buffer (the source has no beryl_tfree on this path) — and returns
the error.  SQLITE_BUSY and other step errors finalize the statement and
release the collection, the descriptors and the buffer before returning.
Returns the grown collection and trace on SQLITE_DONE. -/
def stepLoop (rowCells : List (List SqlCell)) (fin : StepFinal)
    (names : List IVal) (stmtId bufId : Nat) (nameIds : List Nat)
    (rowsId : Nat) (rows : List IVal) (tr : Trace) :
    Except (CallResult × Trace) (List IVal × Trace) :=
  match rowCells with
  | [] =>
      match fin with
      | .done => .ok (rows, tr)
      | .busy =>
          .error (.errv "Database is busy (timeout)",
            ((nameIds.foldl Trace.free ((tr.free stmtId).free rowsId)).free bufId))
      | .errcode _ =>
          .error (.errv "SQL error",
            ((nameIds.foldl Trace.free ((tr.free stmtId).free rowsId)).free bufId))
  | cells :: more =>
      match create_table_from_row cells names tr with
      | (.err m, tr2) =>
          .error (.errv m, nameIds.foldl Trace.free ((tr2.free stmtId).free rowsId))
      | (t, tr2) =>
          stepLoop more fin names stmtId bufId nameIds rowsId (rows ++ [t]) tr2

/-- Statement loop of beryl_sqldb_object_call (src/beryl_sql.c lines
148-228), driven by the engine compilation of the script text.  A compile
error returns at once — the source releases nothing on this path, in
particular not the result collection.  A bind failure finalizes the
statement and releases the collection.  The descriptor buffer (beryl_talloc)
and the descriptors are then built; on descriptor failure the buffer, the
statement and the collection are released (the descriptors themselves are
not, see allocNames).  After a successful statement the source releases the
descriptors and finalizes the statement (the descriptor buffer is not freed
on this path either) and continues with the remaining script. -/
def scriptLoop (plan : List ScriptItem) (params : List IVal) (rowsId : Nat)
    (rows : List IVal) (tr : Trace) : CallResult × Trace :=
  match plan with
  | [] => (.ok rows, tr)
  | .compileError _ :: _ => (.errv "SQL compiler error", tr)
  | .stmt s :: rest =>
      let a := tr.acquire
      let stmtId := a.1
      match bindAll s.nParams 1 params with
      | .error (.errcode _) =>
          (.errv "SQL parameter error", ((a.2.free stmtId).free rowsId))
      | .error .undef => (.undef, a.2)
      | .ok cells =>
          match a.2.alloc with
          | (none, tr2) => (.errv "Out of memory", ((tr2.free stmtId).free rowsId))
          | (some bufId, tr2) =>
              match allocNames s.colNames tr2 with
              | (none, tr3) =>
                  (.errv "Out of memory",
                    (((tr3.free bufId).free stmtId).free rowsId))
              | (some nameVals, tr3) =>
                  let rr := s.run cells
                  match stepLoop rr.1 rr.2 (nameVals.map Prod.fst) stmtId bufId
                      (nameVals.map Prod.snd) rowsId rows tr3 with
                  | .error out => out
                  | .ok (rows2, tr4) =>
                      let tr5 := (nameVals.map Prod.snd).foldl Trace.free tr4
                      let tr6 := tr5.free stmtId
                      scriptLoop rest params rowsId rows2 tr6

/-- Embedding of beryl_sqldb_object_call (src/beryl_sql.c lines 126-230).
The handle carries the nullable native connection; the script text argument
args[0] is passed together with the engine compilation plan of that text
(the engine is an opaque oracle); the remaining arguments are the shared
parameter list.  The source checks, in order: the connection is non-null,
args[0] is a String, and the parameter count does not exceed
SQLITE_LIMIT_VARIABLE_NUMBER (the limit-category identifier, 9); then it
allocates the result collection and runs the statement loop. -/
def beryl_sqldb_object_call (db : Option Sqlite3) (plan : List ScriptItem)
    (sqlArg : IVal) (params : List IVal) (tr : Trace) : CallResult × Trace :=
  match db with
  | none => (.errv "Database has been closed", tr)
  | some _ =>
      if BERYL_TYPEOF sqlArg ≠ BTag.tstr then
        (.errv "Expected SQL query (a string) as first argument", tr)
      else if params.length > SQLITE_LIMIT_VARIABLE_NUMBER then
        (.errv "Too many parameters", tr)
      else
        match tr.alloc with
        | (none, tr2) => (.errv "Out of memory", tr2)
        | (some rowsId, tr2) => scriptLoop plan params rowsId [] tr2

/-! ## close and get-last-insert-rowid, embedded from the source -/

/-- Result of the engine sqlite3_close call: the result code, and whether a
native connection was actually released.  Per the engine documentation,
sqlite3_close on a null handle is a harmless no-op returning SQLITE_OK; on a
live handle it releases the connection and returns SQLITE_OK, unless the
connection cannot be closed (unfinalized statements), in which case it
returns SQLITE_BUSY and releases nothing. -/
structure CloseOut where
  code : Nat
  released : Bool
deriving DecidableEq

def sqlite3_close : Option Sqlite3 → CloseOut
  | none => { code := SQLITE_OK, released := false }
  | some c =>
      if c.canClose then { code := SQLITE_OK, released := true }
      else { code := SQLITE_BUSY, released := false }

/-- Result of close_callback: the host value returned, the stored native
handle afterwards, and whether the engine released a connection during the
call (instrumentation of the engine model, for the double-release claims). -/
structure CloseCallbackOut where
  result : IVal
  newDb : Option Sqlite3
  engineReleased : Bool

/-- Embedding of close_callback (src/beryl_sql.c lines 240-257): after the
class check, sqlite3_close is called on the stored handle — with no null
check — and only if it reports SQLITE_OK is the stored handle nulled and
Null returned; otherwise the handle is left unchanged and an error value is
returned. -/
def close_callback (isSqldb : Bool) (db : Option Sqlite3) : CloseCallbackOut :=
  if isSqldb = false then
    { result := .err "Expected database object as argument for 'close'"
    , newDb := db, engineReleased := false }
  else
    let out := sqlite3_close db
    if out.code ≠ SQLITE_OK then
      { result := .err "Unable to close database"
      , newDb := db, engineReleased := out.released }
    else
      { result := .vnull, newDb := none, engineReleased := out.released }

/-- Engine call sqlite3_last_insert_rowid: on a null handle the engine reads
through the null pointer — undefined behavior, modelled as none; on a live
handle it returns the rowid counter. -/
def sqlite3_last_insert_rowid : Option Sqlite3 → Option Int
  | none => none
  | some c => some c.lastRowid

/-- Result of get_last_insert_rowid_callback: a host value, or the marker
that the engine was entered with a null handle (undefined behavior). -/
inductive RowidOut where
  | val (v : IVal)
  | nullHandleAccess

/-- Embedding of get_last_insert_rowid_callback (src/beryl_sql.c lines
295-310): after the class check the engine counter is read — with no check
that the stored handle is non-null — and range-checked against
BERYL_NUM_MAX_INT. -/
def get_last_insert_rowid_callback (isSqldb : Bool) (db : Option Sqlite3) :
    RowidOut :=
  if isSqldb = false then
    .val (.err "Expected database object as argument for 'close'")
  else
    match sqlite3_last_insert_rowid db with
    | none => .nullHandleAccess
    | some id =>
        if id > BERYL_NUM_MAX_INT then .val (.err "Id out of range")
        else .val (.number (id : ℚ))

/-! ## The trivial SELECT ? round trip -/

/-- Engine behavior of the trivial statement SELECT ? used by the round-trip
properties of the spec: one bindable parameter, one result column (named by
the expression text), and a single result row containing exactly the bound
parameter cell — the engine returns bound text/blob bytes and numeric cells
unchanged. -/
def selectParamStmt : PreparedStmt :=
  { nParams := 1
  , colNames := [[63]]
  , run := fun cells => ([[cells.headD .cnull]], .done) }

/-- A live connection and a fresh trace with no induced allocation failures,
for the concrete scenario runs. -/
def conn0 : Sqlite3 := { canClose := true, lastRowid := 0 }

def trEmpty : Trace := { nextId := 0, failSet := [], allocs := [], frees := [] }

/-- Round trip of one host value through the script call with the trivial
SELECT ? statement: bind the value as the single parameter and return the
call result. -/
def roundTrip (v : IVal) : CallResult :=
  (beryl_sqldb_object_call (some conn0) [.stmt selectParamStmt]
    (.str (strLit "SELECT ?")) [v] trEmpty).fst

/-! ## Concrete scenario statements for the resource-safety runs -/

/-- A parameterless statement with one column (name "a") producing one row
holding the INTEGER 1, then SQLITE_DONE. -/
def stmtOneRow : PreparedStmt :=
  { nParams := 0, colNames := [[97]], run := fun _ => ([[.cint 1]], .done) }

/-- A parameterless statement with two columns (names "a", "b") producing no
rows. -/
def stmtTwoCols : PreparedStmt :=
  { nParams := 0, colNames := [[97], [98]], run := fun _ => ([], .done) }

/-- A fresh trace whose fifth host allocation (serial number 4) reports
out-of-memory. -/
def trOom4 : Trace := { nextId := 0, failSet := [4], allocs := [], frees := [] }

/-- A concrete non-integral rational (one half), for the non-integer Number
round-trip instance. -/
def halfVal : ℚ := ⟨1, 2, by decide, Nat.coprime_one_left 2⟩

/-! ## Shared lemmas -/

/-- Any successful single-parameter bind flows through the trivial SELECT ?
round trip into a one-row, one-column result collection holding the decoded
cell, provided the cell is not an oversize text/blob. -/
theorem roundTrip_ok (v : IVal) (c : SqlCell)
    (hb : bind_i_val_as_sql_param 1 1 v = .ok c)
    (hsz : sqlite3_column_bytes c ≤ I_SIZE_MAX) :
    roundTrip v = .ok [.table [(.str [63], decodeCell c)]] := by
  cases c with
  | cnull =>
      simp [roundTrip, beryl_sqldb_object_call, BERYL_TYPEOF, SQLITE_LIMIT_VARIABLE_NUMBER,
        Trace.alloc, Trace.acquire, Trace.free, trEmpty, scriptLoop, bindAll, hb,
        selectParamStmt, allocNames, stepLoop, create_table_from_row, rowLoop,
        I_SIZE_MAX, decodeCell]
  | cint i =>
      simp [roundTrip, beryl_sqldb_object_call, BERYL_TYPEOF, SQLITE_LIMIT_VARIABLE_NUMBER,
        Trace.alloc, Trace.acquire, Trace.free, trEmpty, scriptLoop, bindAll, hb,
        selectParamStmt, allocNames, stepLoop, create_table_from_row, rowLoop,
        I_SIZE_MAX, decodeCell, sqlite3_column_double]
  | cfloat q =>
      simp [roundTrip, beryl_sqldb_object_call, BERYL_TYPEOF, SQLITE_LIMIT_VARIABLE_NUMBER,
        Trace.alloc, Trace.acquire, Trace.free, trEmpty, scriptLoop, bindAll, hb,
        selectParamStmt, allocNames, stepLoop, create_table_from_row, rowLoop,
        I_SIZE_MAX, decodeCell, sqlite3_column_double]
  | ctext b =>
      simp only [sqlite3_column_bytes, I_SIZE_MAX] at hsz
      have hlt : ¬ (4294967295 < b.length) := by omega
      simp [hlt, roundTrip, beryl_sqldb_object_call, BERYL_TYPEOF, SQLITE_LIMIT_VARIABLE_NUMBER,
        Trace.alloc, Trace.acquire, Trace.free, trEmpty, scriptLoop, bindAll, hb,
        selectParamStmt, allocNames, stepLoop, create_table_from_row, rowLoop,
        I_SIZE_MAX, decodeCell, sqlite3_column_bytes, sqlite3_column_blob]
  | cblob b =>
      simp only [sqlite3_column_bytes, I_SIZE_MAX] at hsz
      have hlt : ¬ (4294967295 < b.length) := by omega
      simp [hlt, roundTrip, beryl_sqldb_object_call, BERYL_TYPEOF, SQLITE_LIMIT_VARIABLE_NUMBER,
        Trace.alloc, Trace.acquire, Trace.free, trEmpty, scriptLoop, bindAll, hb,
        selectParamStmt, allocNames, stepLoop, create_table_from_row, rowLoop,
        I_SIZE_MAX, decodeCell, sqlite3_column_bytes, sqlite3_column_blob]

/-- A bind failure on the single parameter of the trivial SELECT ? script
makes the whole call fail with the parameter error. -/
theorem roundTrip_bindErr (v : IVal) (e : Nat)
    (hb : bind_i_val_as_sql_param 1 1 v = .errcode e) :
    roundTrip v = .errv "SQL parameter error" := by
  simp [roundTrip, beryl_sqldb_object_call, BERYL_TYPEOF, SQLITE_LIMIT_VARIABLE_NUMBER,
    Trace.alloc, Trace.acquire, Trace.free, trEmpty, scriptLoop, bindAll, hb, selectParamStmt]

/-- The int64-to-double conversion is exact up to magnitude 2^53. -/
theorem int64ToDouble_exact (n : Int) (h : n.natAbs ≤ 2 ^ 53) :
    int64ToDouble n = (n : ℚ) := by
  have hmr : intMagRound n.natAbs = n.natAbs := by
    unfold intMagRound
    rw [if_pos h]
  rw [int64ToDouble, hmr, Int.sign_mul_natAbs]

/-- An integer-flagged Number whose value fits in the C int type binds as
the corresponding INTEGER cell. -/
theorem bind_integer_in_range (nP i : Nat) (q : ℚ)
    (hint : beryl_is_integer q = true)
    (hlo : -(2 ^ 31) ≤ q.num) (hhi : q.num ≤ 2 ^ 31 - 1)
    (hi1 : 1 ≤ i) (hiN : i ≤ nP) :
    bind_i_val_as_sql_param nP i (.number q) = .ok (.cint q.num) := by
  have hden : q.den = 1 := by simpa [beryl_is_integer] using hint
  have hc : -2147483648 ≤ q.num ∧ q.num ≤ 2147483647 := by
    constructor <;> omega
  simp [bind_i_val_as_sql_param, hint, doubleToCInt, hden, Int.tdiv_one,
    hc, sqlite3_bind_cell, hi1, hiN]

/-- A rational with denominator one is its own numerator. -/
theorem rat_of_den_one (q : ℚ) (h : q.den = 1) : ((q.num : ℚ)) = q :=
  (Rat.den_eq_one_iff q).mp h

/-- The row loop, run on matching column and descriptor lists, produces
exactly the zip of the descriptors with the decoded cells after the
accumulator. -/
theorem rowLoop_table (cells : List SqlCell) (names : List IVal) (tid : Nat)
    (acc entries : List (IVal × IVal)) (tr tr2 : Trace)
    (hlen : names.length = cells.length)
    (h : rowLoop cells names tid acc tr = (.table entries, tr2)) :
    entries = acc ++ List.zipWith (fun n c => (n, decodeCell c)) names cells := by
  induction cells generalizing names acc tr with
  | nil =>
      cases names with
      | nil =>
          simp only [rowLoop, Prod.mk.injEq, IVal.table.injEq] at h
          simp [← h.1]
      | cons n ns => simp at hlen
  | cons c cs ih =>
      cases names with
      | nil => simp at hlen
      | cons n ns =>
          simp only [List.length_cons, Nat.succ_inj] at hlen
          cases c with
          | cnull =>
              simp only [rowLoop, List.headD, List.tail_cons] at h
              simpa [decodeCell] using ih ns _ _ hlen h
          | cint i =>
              simp only [rowLoop, List.headD, List.tail_cons] at h
              simpa [decodeCell, sqlite3_column_double] using ih ns _ _ hlen h
          | cfloat q =>
              simp only [rowLoop, List.headD, List.tail_cons] at h
              simpa [decodeCell, sqlite3_column_double] using ih ns _ _ hlen h
          | ctext b =>
              simp only [rowLoop, List.headD, List.tail_cons] at h
              split at h
              · simp at h
              · split at h
                · simp at h
                · simpa [decodeCell, sqlite3_column_blob] using ih ns _ _ hlen h
          | cblob b =>
              simp only [rowLoop, List.headD, List.tail_cons] at h
              split at h
              · simp at h
              · split at h
                · simp at h
                · simpa [decodeCell, sqlite3_column_blob] using ih ns _ _ hlen h

/-- Shape of the zip of descriptors with decoded cells. -/
theorem zipWith_decode_spec (names : List IVal) (cells : List SqlCell)
    (hlen : names.length = cells.length) :
    (List.zipWith (fun n c => (n, decodeCell c)) names cells).length = cells.length ∧
    (List.zipWith (fun n c => (n, decodeCell c)) names cells).map Prod.fst = names ∧
    (List.zipWith (fun n c => (n, decodeCell c)) names cells).map Prod.snd
      = cells.map decodeCell := by
  induction names generalizing cells with
  | nil =>
      cases cells with
      | nil => simp
      | cons c cs => simp at hlen
  | cons n ns ih =>
      cases cells with
      | nil => simp at hlen
      | cons c cs =>
          simp only [List.length_cons, Nat.succ_inj] at hlen
          have := ih cs hlen
          simp [this.1, this.2.1, this.2.2]

/-- A successful row decode yields one entry per column, keyed by the
descriptors in order, with the per-cell decoding map applied. -/
theorem create_table_from_row_spec (cells : List SqlCell) (names : List IVal)
    (tr tr2 : Trace) (entries : List (IVal × IVal))
    (hlen : names.length = cells.length)
    (h : create_table_from_row cells names tr = (.table entries, tr2)) :
    entries.length = cells.length ∧
    entries.map Prod.fst = names ∧
    entries.map Prod.snd = cells.map decodeCell := by
  unfold create_table_from_row at h
  split at h
  · simp at h
  · split at h
    · simp at h
    · have he := rowLoop_table cells names _ [] entries _ tr2 hlen h
      simp only [List.nil_append] at he
      rw [he]
      exact zipWith_decode_spec names cells hlen

/-! ## Claim theorems -/

/-- C1: the claim states that on every failing script invocation (compiler
error, bind error, busy, row-materialization error, out-of-memory) the
statement handle, the column descriptors and their backing buffer, and the
accumulated partial result collection are all released exactly once before
the error is returned.  The source violates this on three exit paths,
exhibited here by three concrete runs: (i) a successful one-row statement
followed by a compile error returns the compiler error with the result
collection (resource 0) allocated and never released; (ii) an out-of-memory
during row materialization returns with the descriptor backing buffer
(resource 2) allocated and never freed; (iii) an out-of-memory while
building the second column descriptor returns with the first descriptor
(resource 3) allocated and never released (the source cleanup loop releases
the wrong slot). -/
theorem c1_failure_path_release_violated :
    ((beryl_sqldb_object_call (some conn0) [.stmt stmtOneRow, .compileError 1]
        (.str [115]) [] trEmpty).1 = .errv "SQL compiler error" ∧
      0 ∈ (beryl_sqldb_object_call (some conn0) [.stmt stmtOneRow, .compileError 1]
        (.str [115]) [] trEmpty).2.allocs ∧
      0 ∉ (beryl_sqldb_object_call (some conn0) [.stmt stmtOneRow, .compileError 1]
        (.str [115]) [] trEmpty).2.frees) ∧
    ((beryl_sqldb_object_call (some conn0) [.stmt stmtOneRow]
        (.str [115]) [] trOom4).1 = .errv "Out of memory" ∧
      2 ∈ (beryl_sqldb_object_call (some conn0) [.stmt stmtOneRow]
        (.str [115]) [] trOom4).2.allocs ∧
      2 ∉ (beryl_sqldb_object_call (some conn0) [.stmt stmtOneRow]
        (.str [115]) [] trOom4).2.frees) ∧
    ((beryl_sqldb_object_call (some conn0) [.stmt stmtTwoCols]
        (.str [115]) [] trOom4).1 = .errv "Out of memory" ∧
      3 ∈ (beryl_sqldb_object_call (some conn0) [.stmt stmtTwoCols]
        (.str [115]) [] trOom4).2.allocs ∧
      3 ∉ (beryl_sqldb_object_call (some conn0) [.stmt stmtTwoCols]
        (.str [115]) [] trOom4).2.frees) :=
  ⟨⟨rfl, by decide, by decide⟩, ⟨rfl, by decide, by decide⟩, ⟨rfl, by decide, by decide⟩⟩

/-- C2: the claim states that on a handle whose stored native connection is
null, both invoking the handle as a callable and get-last-insert-rowid fail
with a closed error without touching the engine.  The call path does fail
that way, but get-last-insert-rowid performs no null check and enters the
engine with the null handle (undefined behavior), so the claim fails on the
second operation. -/
theorem c2_closed_handle_checks :
    (∀ (plan : List ScriptItem) (sqlArg : IVal) (params : List IVal) (tr : Trace),
      (beryl_sqldb_object_call none plan sqlArg params tr).1
        = .errv "Database has been closed") ∧
    get_last_insert_rowid_callback true none = .nullHandleAccess :=
  ⟨fun _ _ _ _ => rfl, rfl⟩

/-- C3 counterexample: the claim states that a second close after a
successful close fails with a Resource-closed error; in fact it succeeds,
returning Null (the stored handle is null, the engine close on a null
handle is a no-op, and close_callback has no null check). -/
theorem c3_second_close_counterexample :
    close_callback true none
      = { result := .vnull, newDb := none, engineReleased := false } := rfl

/-- C3 amended: a first close on a closable connection releases the native
connection and nulls the stored handle; a second close then succeeds,
returning Null, without releasing any native connection a second time — no
Resource-closed error is raised. -/
theorem c3_second_close_amended :
    (∀ (c : Sqlite3), c.canClose = true →
      close_callback true (some c)
        = { result := .vnull, newDb := none, engineReleased := true }) ∧
    close_callback true none
      = { result := .vnull, newDb := none, engineReleased := false } := by
  constructor
  · intro c h
    simp [close_callback, sqlite3_close, h, SQLITE_OK]
  · rfl

/-- C3 witness: the amended statement instantiated at a concrete closable
connection. -/
theorem c3_second_close_amended_witness :
    close_callback true (some { canClose := true, lastRowid := 3 })
      = { result := .vnull, newDb := none, engineReleased := true } :=
  c3_second_close_amended.1 { canClose := true, lastRowid := 3 } rfl

/-- C4 counterexample: the claim states that every integer-flagged Number
round-trips to the same integer value; at the integer 2^31 the bind performs
an out-of-range double-to-int conversion (sqlite3_bind_int takes a C int),
which is undefined behavior, so the round trip does not produce the value. -/
theorem c4_integer_roundtrip_counterexample :
    beryl_is_integer ((2 ^ 31 : Int) : ℚ) = true ∧
    roundTrip (.number ((2 ^ 31 : Int) : ℚ)) = .undef ∧
    roundTrip (.number ((2 ^ 31 : Int) : ℚ))
      ≠ .ok [.table [(.str [63], .number ((2 ^ 31 : Int) : ℚ))]] := by
  refine ⟨rfl, rfl, ?_⟩
  rw [show roundTrip (.number ((2 ^ 31 : Int) : ℚ)) = .undef from rfl]
  simp

/-- C4 amended: an integer-flagged Number round-trips through SELECT ? to a
Host Number with the same integer value whenever the value fits the C int
type ([-2^31, 2^31-1], the argument type of sqlite3_bind_int); a non-integer
Number round-trips to a Host Number equal to the input. -/
theorem c4_number_roundtrip_amended (q : ℚ) :
    (beryl_is_integer q = true → -(2 ^ 31) ≤ q.num → q.num ≤ 2 ^ 31 - 1 →
      roundTrip (.number q) = .ok [.table [(.str [63], .number q)]]) ∧
    (beryl_is_integer q = false →
      roundTrip (.number q) = .ok [.table [(.str [63], .number q)]]) := by
  constructor
  · intro hint hlo hhi
    have hb := bind_integer_in_range 1 1 q hint hlo hhi (le_refl 1) (le_refl 1)
    have h := roundTrip_ok (.number q) (.cint q.num) hb
      (by simp [sqlite3_column_bytes, I_SIZE_MAX])
    rw [h]
    have hden : q.den = 1 := by simpa [beryl_is_integer] using hint
    have habs : q.num.natAbs ≤ 2 ^ 53 := by omega
    rw [show decodeCell (.cint q.num) = .number (int64ToDouble q.num) from rfl,
      int64ToDouble_exact q.num habs, rat_of_den_one q hden]
  · intro hnot
    have hb : bind_i_val_as_sql_param 1 1 (.number q) = .ok (.cfloat q) := by
      simp [bind_i_val_as_sql_param, hnot, sqlite3_bind_cell]
    have h := roundTrip_ok (.number q) (.cfloat q) hb
      (by simp [sqlite3_column_bytes, I_SIZE_MAX])
    rw [h]
    rfl

/-- C4 witness: the amended statement instantiated at the integer 3 and at
the non-integral value one half. -/
theorem c4_number_roundtrip_amended_witness :
    roundTrip (.number ((3 : Int) : ℚ))
      = .ok [.table [(.str [63], .number ((3 : Int) : ℚ))]] ∧
    roundTrip (.number halfVal)
      = .ok [.table [(.str [63], .number halfVal)]] :=
  ⟨(c4_number_roundtrip_amended ((3 : Int) : ℚ)).1 rfl (by decide) (by decide),
    (c4_number_roundtrip_amended halfVal).2 rfl⟩

/-- C5: the claim states that the up-front parameter-count check enforces
the engine maximum bindable parameter count, with counts within the engine
limit passing.  The source instead compares against
SQLITE_LIMIT_VARIABLE_NUMBER — the sqlite3_limit() category identifier,
whose value is 9 — so a call with 10 parameters, far inside the engine
limit, is rejected with the limit error before anything is prepared (the
trace is returned untouched). -/
theorem c5_param_limit_miscompared :
    10 ≤ SQLITE_MAX_VARIABLE_NUMBER ∧ SQLITE_LIMIT_VARIABLE_NUMBER = 9 ∧
    (∀ (c : Sqlite3) (plan : List ScriptItem) (s : List Nat) (tr : Trace),
      beryl_sqldb_object_call (some c) plan (.str s)
        (List.replicate 10 .vnull) tr = (.errv "Too many parameters", tr)) := by
  refine ⟨by norm_num [SQLITE_MAX_VARIABLE_NUMBER], rfl, ?_⟩
  intro c plan s tr
  simp [beryl_sqldb_object_call, BERYL_TYPEOF, SQLITE_LIMIT_VARIABLE_NUMBER]

/-- C6 counterexample: the claim states the fallback placeholder is the
literal text "Unknown"; the source binds the misspelled literal "Unkown". -/
theorem c6_placeholder_spelling_counterexample :
    bind_i_val_as_sql_param 1 1 (.array []) ≠ .ok (.ctext (strLit "Unknown")) ∧
    bind_i_val_as_sql_param 1 1 (.array []) = .ok (.ctext (strLit "Unkown")) := by
  constructor
  · simp [bind_i_val_as_sql_param, sqlite3_bind_cell, strLit]
  · rfl

/-- C6 amended: every host value whose variant is not String, Null or Number
binds, at a valid parameter index, as the literal text placeholder "Unkown"
(as spelled in the source) rather than failing. -/
theorem c6_other_variant_placeholder (v : IVal) (nP i : Nat)
    (h1 : BERYL_TYPEOF v ≠ .tstr) (h2 : BERYL_TYPEOF v ≠ .tnull)
    (h3 : BERYL_TYPEOF v ≠ .tnumber) (hi1 : 1 ≤ i) (hiN : i ≤ nP) :
    bind_i_val_as_sql_param nP i v = .ok (.ctext (strLit "Unkown")) := by
  cases v with
  | vnull => simp [BERYL_TYPEOF] at h2
  | number q => simp [BERYL_TYPEOF] at h3
  | str b => simp [BERYL_TYPEOF] at h1
  | array xs => simp [bind_i_val_as_sql_param, sqlite3_bind_cell, hi1, hiN]
  | table es => simp [bind_i_val_as_sql_param, sqlite3_bind_cell, hi1, hiN]
  | err m => simp [bind_i_val_as_sql_param, sqlite3_bind_cell, hi1, hiN]
  | extfn id => simp [bind_i_val_as_sql_param, sqlite3_bind_cell, hi1, hiN]
  | object id => simp [bind_i_val_as_sql_param, sqlite3_bind_cell, hi1, hiN]

/-- C6 witness: the amended statement instantiated at an empty Array bound
as the single parameter. -/
theorem c6_other_variant_placeholder_witness :
    bind_i_val_as_sql_param 1 1 (.array []) = .ok (.ctext (strLit "Unkown")) :=
  c6_other_variant_placeholder (.array []) 1 1 (by decide) (by decide)
    (by decide) (by decide) (by decide)

/-- C7: every successfully decoded result row with n columns produces a
Table with exactly n entries, keyed by the pre-computed column descriptors
in engine column order, with engine NULL mapped to host Null, INTEGER and
FLOAT mapped to host Number, and TEXT and BLOB mapped to a copied host
String (the per-cell map decodeCell). -/
theorem c7_row_decode (cells : List SqlCell) (names : List IVal)
    (tr tr2 : Trace) (entries : List (IVal × IVal))
    (hlen : names.length = cells.length)
    (h : create_table_from_row cells names tr = (.table entries, tr2)) :
    entries.length = cells.length ∧
    entries.map Prod.fst = names ∧
    entries.map Prod.snd = cells.map decodeCell :=
  create_table_from_row_spec cells names tr tr2 entries hlen h

/-- C7 witness: the statement instantiated at a concrete three-column row
(NULL, INTEGER 2, TEXT "A") with descriptors "k", "l", "m". -/
theorem c7_row_decode_witness :
    [((IVal.str [107] : IVal), IVal.vnull),
      (IVal.str [108], IVal.number (int64ToDouble 2)),
      (IVal.str [109], IVal.str [65])].length
        = [SqlCell.cnull, SqlCell.cint 2, SqlCell.ctext [65]].length ∧
    ([((IVal.str [107] : IVal), IVal.vnull),
      (IVal.str [108], IVal.number (int64ToDouble 2)),
      (IVal.str [109], IVal.str [65])]).map Prod.fst
        = [IVal.str [107], IVal.str [108], IVal.str [109]] ∧
    ([((IVal.str [107] : IVal), IVal.vnull),
      (IVal.str [108], IVal.number (int64ToDouble 2)),
      (IVal.str [109], IVal.str [65])]).map Prod.snd
        = [SqlCell.cnull, SqlCell.cint 2, SqlCell.ctext [65]].map decodeCell :=
  c7_row_decode [SqlCell.cnull, SqlCell.cint 2, SqlCell.ctext [65]]
    [IVal.str [107], IVal.str [108], IVal.str [109]] trEmpty
    { nextId := 2, failSet := [], allocs := [0, 1], frees := [] }
    [((IVal.str [107] : IVal), IVal.vnull),
      (IVal.str [108], IVal.number (int64ToDouble 2)),
      (IVal.str [109], IVal.str [65])]
    (by decide) rfl

/-- C8 counterexample: the claim states that every Host String round-trips
byte-identically; a String of 2^31 bytes exceeds the INT_MAX bind-size
guard, the bind fails with SQLITE_TOOBIG, and the call returns the
parameter error instead of any result. -/
theorem c8_oversize_string_counterexample :
    roundTrip (.str (List.replicate (2 ^ 31) 0)) = .errv "SQL parameter error" := by
  apply roundTrip_bindErr _ SQLITE_TOOBIG
  have h : (List.replicate (2 ^ 31) (0 : Nat)).length > INT_MAX := by
    rw [List.length_replicate]
    norm_num [INT_MAX]
  simp only [bind_i_val_as_sql_param]
  rw [if_pos h]

/-- C8 amended: every Host String of byte length at most INT_MAX (the
engine representable size for a single bind call) round-trips through
SELECT ? to a byte-identical Host String. -/
theorem c8_string_roundtrip_amended (bytes : List Nat)
    (h : bytes.length ≤ INT_MAX) :
    roundTrip (.str bytes) = .ok [.table [(.str [63], .str bytes)]] := by
  have hb : bind_i_val_as_sql_param 1 1 (.str bytes) = .ok (.ctext bytes) := by
    simp only [bind_i_val_as_sql_param]
    rw [if_neg (by simp only [INT_MAX] at h ⊢; omega)]
    simp [sqlite3_bind_cell]
  have hsz : sqlite3_column_bytes (.ctext bytes) ≤ I_SIZE_MAX := by
    simp only [sqlite3_column_bytes, I_SIZE_MAX, INT_MAX] at h ⊢
    omega
  exact roundTrip_ok _ _ hb hsz

/-- C8 witness: the amended statement instantiated at the two-byte string
[7, 8]. -/
theorem c8_string_roundtrip_amended_witness :
    roundTrip (.str [7, 8]) = .ok [.table [(.str [63], .str [7, 8])]] :=
  c8_string_roundtrip_amended [7, 8] (by decide)

/-- C9: if the engine close call inside close fails, close returns the
"Unable to close database" error and leaves the stored native handle
unchanged (still non-null), so the handle is still treated as open by
subsequent operations. -/
theorem c9_close_failure_keeps_handle (c : Sqlite3) (h : c.canClose = false) :
    close_callback true (some c)
      = { result := .err "Unable to close database", newDb := some c,
          engineReleased := false } := by
  simp [close_callback, sqlite3_close, h, SQLITE_OK, SQLITE_BUSY]

/-- C9 witness: the statement instantiated at a concrete connection whose
engine close fails. -/
theorem c9_close_failure_keeps_handle_witness :
    close_callback true (some { canClose := false, lastRowid := 5 })
      = { result := .err "Unable to close database"
        , newDb := some { canClose := false, lastRowid := 5 }
        , engineReleased := false } :=
  c9_close_failure_keeps_handle { canClose := false, lastRowid := 5 } rfl

/-- C10 counterexample: the claim states that an INTEGER column value whose
magnitude exceeds the exactly-representable integer range (2^53) is not
returned exactly; 2^54 exceeds 2^53 in magnitude yet is exactly
representable in binary64 and is returned exactly by the decoder. -/
theorem c10_exact_beyond_range_counterexample :
    ((2 ^ 53 : Int) < 2 ^ 54) ∧
    create_table_from_row [.cint (2 ^ 54)] [.str [97]] trEmpty
      = (.table [(.str [97], .number ((2 ^ 54 : Int) : ℚ))],
          { nextId := 1, failSet := [], allocs := [0], frees := [] }) :=
  ⟨by norm_num, rfl⟩

/-- C10 amended: every INTEGER column value is decoded through the
int64-to-double conversion before becoming a Host Number; consequently
exactness beyond magnitude 2^53 fails in general — 2^53 + 1 decodes to
2^53 — while every value of magnitude at most 2^53 is returned exactly
(and some larger values, such as 2^54, happen to be exact as well, see the
counterexample). -/
theorem c10_integer_decode_amended :
    (∀ (i : Int) (name : IVal),
      (create_table_from_row [.cint i] [name] trEmpty).1
        = .table [(name, .number (int64ToDouble i))]) ∧
    (int64ToDouble (2 ^ 53 + 1) = ((2 ^ 53 : Int) : ℚ) ∧
      int64ToDouble (2 ^ 53 + 1) ≠ (((2 ^ 53 + 1 : Int)) : ℚ)) ∧
    (∀ (n : Int), n.natAbs ≤ 2 ^ 53 → int64ToDouble n = (n : ℚ)) := by
  refine ⟨?_, ⟨by decide, ?_⟩, fun n h => int64ToDouble_exact n h⟩
  · intro i name
    simp [create_table_from_row, rowLoop, Trace.alloc, trEmpty, I_SIZE_MAX,
      sqlite3_column_double]
  · rw [show int64ToDouble (2 ^ 53 + 1) = ((2 ^ 53 : Int) : ℚ) from by decide]
    intro hcontra
    have := Rat.intCast_injective hcontra
    omega

/-- C10 witness: the amended statement instantiated at the INTEGER 5 for
the decode shape and at 7 for exactness. -/
theorem c10_integer_decode_amended_witness :
    (create_table_from_row [.cint 5] [.str [97]] trEmpty).1
      = .table [(.str [97], .number (int64ToDouble 5))] ∧
    int64ToDouble 7 = ((7 : Int) : ℚ) :=
  ⟨c10_integer_decode_amended.1 5 (.str [97]),
    c10_integer_decode_amended.2.2 7 (by decide)⟩

end BerylSql
